import Mathlib

/-!
Shallow embedding of the SongShare backend (src/main.py, src/schemas.py).

The FastAPI endpoints `upload_song`, `get_song`, `download_song` and
`analytics_overview` are embedded as pure functions over an explicit system
state `Sys` (the MongoDB collections "song" and "analytics", the set of files
present on disk, and the next document id).  Randomness
(`secrets.token_urlsafe(10)`) is passed in as an explicit list of 10 bytes and
encoded with the url-safe base64 alphabet, exactly as
`base64.urlsafe_b64encode(...).rstrip(b"=")` does.  Fallibility of the two
database writes performed during a download (the `update_one` counter
increment, which the code does not guard, and the `insert_one` analytics write,
which the code wraps in a bare try/except) is modelled by two boolean oracles
`incOk` and `insOk`; a `False` oracle means that call raises.  File persistence
during upload is likewise modelled by a `writeOk` oracle.
-/

namespace SongShare

/-! ### url-safe base64, modelling `secrets.token_urlsafe` -/

/-- The url-safe base64 alphabet used by `base64.urlsafe_b64encode`. -/
def b64urlAlphabet : List Char :=
  "ABCDEFGHIJKLMNOPQRSTUVWXYZabcdefghijklmnopqrstuvwxyz0123456789-_".toList

/-- Encoding of one 6-bit group. -/
def encodeChar (s : Nat) : Char := b64urlAlphabet.getD s 'A'

/-- Decoding of one alphabet character (left inverse of `encodeChar` below 64). -/
def decodeChar (c : Char) : Nat := b64urlAlphabet.indexOf c

/-- The 6-bit groups of a byte string, as produced by base64 encoding after
stripping the padding characters: 3-byte blocks give 4 sextets, a trailing
single byte gives 2 sextets and a trailing pair gives 3. -/
def sextets : List Nat → List Nat
  | [] => []
  | [a] => [a / 4, a % 4 * 16]
  | [a, b] => [a / 4, a % 4 * 16 + b / 16, b % 16 * 4]
  | a :: b :: c :: rest =>
      a / 4 :: (a % 4 * 16 + b / 16) :: (b % 16 * 4 + c / 64) :: c % 64 :: sextets rest

/-- Inverse of `sextets` on byte strings (bytes below 256). -/
def desex : List Nat → List Nat
  | s0 :: s1 :: s2 :: s3 :: rest =>
      (s0 * 4 + s1 / 16) :: (s1 % 16 * 16 + s2 / 4) :: (s2 % 4 * 64 + s3) :: desex rest
  | [s0, s1] => [s0 * 4 + s1 / 16]
  | [s0, s1, s2] => [s0 * 4 + s1 / 16, s1 % 16 * 16 + s2 / 4]
  | _ => []

/-- `secrets.token_urlsafe` applied to the given random bytes: url-safe base64
with the padding stripped.  The code calls it with 10 random bytes. -/
def tokenUrlsafe (bytes : List Nat) : String :=
  String.mk ((sextets bytes).map encodeChar)

/-! ### Data model: the two MongoDB collections and the system state -/

/-- A document of the "song" collection, with exactly the fields written by
`upload_song` plus the `updated_at` field set by `download_song`'s counter
update (absent until the first download). -/
structure SongDoc where
  id : Nat
  title : String
  artist : String
  description : Option String
  token : String
  file_path : String
  original_filename : String
  mime_type : String
  size_bytes : Nat
  download_count : Nat
  updated_at : Option Nat
deriving DecidableEq, Repr

/-- A document of the "analytics" collection, as written by `download_song`. -/
structure AnalyticsDoc where
  token : String
  song_title : String
  event : String
  ip : Option String
  user_agent : Option String
  referer : Option String
  timestamp : Nat
deriving DecidableEq, Repr

/-- System state: whether the database is configured (`db is None` check),
the two collections in insertion order, the set of paths present on disk, and
the id the next insert will receive. -/
structure Sys where
  dbConfigured : Bool
  songs : List SongDoc
  analytics : List AnalyticsDoc
  files : List String
  nextId : Nat
deriving DecidableEq, Repr

/-- HTTP error as raised by `HTTPException(status_code, detail)`. -/
structure HTTPError where
  status : Nat
  detail : String
deriving DecidableEq, Repr

/-! ### Upload -/

/-- The MIME allow-list of `upload_song`. -/
def allowedMimes : List String :=
  ["audio/mpeg", "audio/wav", "audio/x-wav", "audio/flac", "audio/aac",
   "audio/ogg", "audio/mp4", "audio/x-m4a"]

/-- The extension allow-list of `upload_song`. -/
def allowedExts : List String :=
  [".mp3", ".wav", ".flac", ".aac", ".ogg", ".m4a", ".mp4"]

/-- The extension part of `os.path.splitext`: the suffix of the basename from
its last dot, provided some earlier character of the basename is not a dot
(so ".bashrc" has no extension). -/
def splitextExt (s : String) : String :=
  let base := (s.toList.reverse.takeWhile (fun c => c ≠ '/')).reverse
  match base.reverse.findIdx? (fun c => c = '.') with
  | none => ""
  | some k =>
      let cut := base.length - 1 - k
      if (base.take cut).any (fun c => c ≠ '.') then String.mk (base.drop cut) else ""

/-- The multipart upload request: declared filename and content type, the file
bytes, and the form fields. -/
structure UploadRequest where
  filename : String
  content_type : String
  content : List Nat
  title : String
  artist : String
  description : Option String
deriving DecidableEq, Repr

/-- Python `str.lower()`, character-wise (the allow-list comparison only ever
matches on basic latin extensions). -/
def lowerStr (s : String) : String := String.mk (s.toList.map Char.toLower)

/-- The file-type validation of `upload_song`: rejected when the content type
is outside the MIME allow-list and the lowercased extension is outside the
extension allow-list. -/
def uploadTypeRejected (r : UploadRequest) : Bool :=
  !allowedMimes.contains r.content_type
    && !allowedExts.contains (lowerStr (splitextExt r.filename))

/-- `UPLOAD_DIR`; the code uses `os.path.join(os.getcwd(), "uploads")`, whose
cwd prefix is irrelevant to every claim. -/
def UPLOAD_DIR : String := "uploads"

/-- The stored path `os.path.join(UPLOAD_DIR, f"(token)(safe_ext)")`. -/
def uploadStoredPath (r : UploadRequest) (randBytes : List Nat) : String :=
  UPLOAD_DIR ++ "/" ++ tokenUrlsafe randBytes ++ splitextExt r.filename

/-- The "song" document inserted by `upload_song`. -/
def mkUploadDoc (r : UploadRequest) (randBytes : List Nat) (id : Nat) : SongDoc :=
  { id := id
    title := r.title
    artist := r.artist
    description := r.description
    token := tokenUrlsafe randBytes
    file_path := uploadStoredPath r randBytes
    original_filename := r.filename
    mime_type := r.content_type
    size_bytes := r.content.length
    download_count := 0
    updated_at := none }

/-- The JSON payload returned by `upload_song`. -/
structure UploadResponse where
  id : Nat
  token : String
  download_url : String
  meta_url : String
deriving DecidableEq, Repr

/-- Download url construction; with `BACKEND_URL` unset both branches of the
code produce the bare path, which is the `backendUrl = ""` case here. -/
def mkDownloadUrl (backendUrl token : String) : String :=
  backendUrl ++ "/api/songs/" ++ token ++ "/download"

/-- Metadata url construction. -/
def mkMetaUrl (backendUrl token : String) : String :=
  backendUrl ++ "/api/songs/" ++ token

/-- `upload_song`: database check, file-type validation, file write (its
failure modelled by `writeOk = false`, propagating as an unhandled error),
then the record insert, then the response.  The record insert comes after the
file write in the code; correspondingly the success state here carries both
the new file and the new record. -/
def uploadSong (sys : Sys) (r : UploadRequest) (randBytes : List Nat) (writeOk : Bool)
    (backendUrl : String) : Except HTTPError UploadResponse × Sys :=
  if !sys.dbConfigured then (.error ⟨500, "Database not configured"⟩, sys)
  else if uploadTypeRejected r then (.error ⟨400, "Unsupported audio format"⟩, sys)
  else if !writeOk then (.error ⟨500, "Internal Server Error"⟩, sys)
  else
    let token := tokenUrlsafe randBytes
    (.ok { id := sys.nextId
           token := token
           download_url := mkDownloadUrl backendUrl token
           meta_url := mkMetaUrl backendUrl token },
     { sys with songs := sys.songs ++ [mkUploadDoc r randBytes sys.nextId]
                files := uploadStoredPath r randBytes :: sys.files
                nextId := sys.nextId + 1 })

/-! ### Metadata lookup -/

/-- The JSON payload returned by `get_song`; built by the code explicitly
without the `file_path` field. -/
structure GetSongResponse where
  title : String
  artist : String
  description : Option String
  token : String
  size_bytes : Nat
  mime_type : String
  download_count : Nat
  download_url : String
  original_filename : String
deriving DecidableEq, Repr

/-- `get_song`: `find_one` on the "song" collection by token (first match in
insertion order), 404 when absent, otherwise the response payload.  No write
of any kind is performed. -/
def getSong (sys : Sys) (token : String) (backendUrl : String) :
    Except HTTPError GetSongResponse × Sys :=
  if !sys.dbConfigured then (.error ⟨500, "Database not configured"⟩, sys)
  else
    match sys.songs.find? (fun d => d.token == token) with
    | none => (.error ⟨404, "Song not found"⟩, sys)
    | some doc =>
        (.ok { title := doc.title
               artist := doc.artist
               description := doc.description
               token := doc.token
               size_bytes := doc.size_bytes
               mime_type := doc.mime_type
               download_count := doc.download_count
               download_url := mkDownloadUrl backendUrl token
               original_filename := doc.original_filename }, sys)

/-! ### Download -/

/-- The request context read by `download_song` (client host and headers). -/
structure ReqCtx where
  client : Option String
  user_agent : Option String
  referer : Option String
deriving DecidableEq, Repr

/-- `os.path.basename`. -/
def basename (s : String) : String :=
  String.mk ((s.toList.reverse.takeWhile (fun c => c ≠ '/')).reverse)

/-- The `FileResponse` arguments returned on a successful download. -/
structure FileResponsePayload where
  path : String
  media_type : String
  filename : String
deriving DecidableEq, Repr

/-- The `update_one` call of `download_song`: one atomic step that bumps
`download_count` by 1 and refreshes `updated_at` on the first document whose
`_id` matches. -/
def incFirst : List SongDoc → Nat → Nat → List SongDoc
  | [], _, _ => []
  | d :: rest, i, now =>
      if d.id == i then
        { d with download_count := d.download_count + 1, updated_at := some now } :: rest
      else d :: incFirst rest i now

/-- The analytics document inserted by `download_song`. -/
def mkDownloadEvent (token : String) (doc : SongDoc) (req : ReqCtx) (now : Nat) :
    AnalyticsDoc :=
  { token := token
    song_title := doc.title
    event := "download"
    ip := req.client
    user_agent := req.user_agent
    referer := req.referer
    timestamp := now }

/-- `download_song`: database check, lookup by token, 404 when absent, 404
when the stored path is falsy or the file does not exist on disk; then the
counter `update_one` (not inside any try/except in the code, so its failure —
`incOk = false` — propagates as an unhandled error), then the analytics insert
inside try/except (its failure — `insOk = false` — is swallowed), then the
`FileResponse`. -/
def downloadSong (sys : Sys) (token : String) (req : ReqCtx) (now : Nat)
    (incOk insOk : Bool) : Except HTTPError FileResponsePayload × Sys :=
  if !sys.dbConfigured then (.error ⟨500, "Database not configured"⟩, sys)
  else
    match sys.songs.find? (fun d => d.token == token) with
    | none => (.error ⟨404, "Song not found"⟩, sys)
    | some doc =>
        if doc.file_path = "" ∨ doc.file_path ∉ sys.files then
          (.error ⟨404, "File missing on server"⟩, sys)
        else if !incOk then (.error ⟨500, "Internal Server Error"⟩, sys)
        else
          let sys1 := { sys with songs := incFirst sys.songs doc.id now }
          let sys2 :=
            if insOk then
              { sys1 with analytics := sys1.analytics ++ [mkDownloadEvent token doc req now] }
            else sys1
          (.ok { path := doc.file_path
                 media_type :=
                   if doc.mime_type = "" then "application/octet-stream" else doc.mime_type
                 filename :=
                   if doc.original_filename = "" then basename doc.file_path
                   else doc.original_filename }, sys2)

/-! ### Analytics overview -/

/-- The projection used for `top_songs`. -/
structure TopSong where
  title : String
  artist : String
  download_count : Nat
deriving DecidableEq, Repr

/-- The payload returned by `analytics_overview`. -/
structure Overview where
  total_songs : Nat
  total_downloads : Nat
  top_songs : List TopSong
  recent_downloads : List AnalyticsDoc
deriving DecidableEq, Repr

/-- The rows returned by the `aggregate` pipeline grouping everything and
summing `download_count`: no row for an empty collection, else one row. -/
def aggRows (songs : List SongDoc) : List Nat :=
  if songs.isEmpty then [] else [(songs.map (fun d => d.download_count)).sum]

/-- The python loop `for row in rows: val = row` over the aggregate rows,
starting from 0. -/
def foldRows (rows : List Nat) : Nat := rows.foldl (fun _ row => row) 0

/-- Projection of a song document for the `top_songs` query. -/
def projTop (d : SongDoc) : TopSong :=
  { title := d.title, artist := d.artist, download_count := d.download_count }

/-- Sort key of `.sort("download_count", -1)`. -/
def topDesc (a b : TopSong) : Bool := decide (b.download_count ≤ a.download_count)

/-- Sort key of `.sort("timestamp", -1)`. -/
def recentDesc (a b : AnalyticsDoc) : Bool := decide (b.timestamp ≤ a.timestamp)

/-- `analytics_overview`: count, aggregate sum, top songs by descending
download count limited to `limit`, and the most recent analytics documents of
event "download" limited to `limit`, newest first. -/
def analyticsOverview (sys : Sys) (limit : Nat) : Except HTTPError Overview × Sys :=
  if !sys.dbConfigured then (.error ⟨500, "Database not configured"⟩, sys)
  else
    (.ok { total_songs := sys.songs.length
           total_downloads := foldRows (aggRows sys.songs)
           top_songs := ((sys.songs.map projTop).mergeSort topDesc).take limit
           recent_downloads :=
             ((sys.analytics.filter (fun e => e.event == "download")).mergeSort
               recentDesc).take limit }, sys)

/-! ### Sequences of uploads, for the uniqueness claim -/

/-- Run one upload per random draw, in order, collecting the tokens of the
successful responses. -/
def runUploads (r : UploadRequest) (writeOk : Bool) (backendUrl : String) :
    Sys → List (List Nat) → List String × Sys
  | sys, [] => ([], sys)
  | sys, bs :: rest =>
      match uploadSong sys r bs writeOk backendUrl with
      | (.ok resp, sys2) =>
          let next := runUploads r writeOk backendUrl sys2 rest
          (resp.token :: next.1, next.2)
      | (.error _, sys2) => runUploads r writeOk backendUrl sys2 rest

/-! ### Spec-side slug base, and substring helpers for comparing it with the
code's tokens -/

/-- Alphanumeric test for the spec's slug algorithm. -/
def isAlnum (c : Char) : Bool := c.isAlpha || c.isDigit

/-- Collapse runs of the separator. -/
def collapseSep : List Char → List Char
  | [] => []
  | [c] => [c]
  | a :: b :: rest =>
      if a = '-' && b = '-' then collapseSep (b :: rest) else a :: collapseSep (b :: rest)

/-- Trim leading and trailing separators. -/
def trimSep (cs : List Char) : List Char :=
  ((cs.dropWhile (fun c => c = '-')).reverse.dropWhile (fun c => c = '-')).reverse

/-- Modelled from the spec: the human-readable slug base of section 4.1 —
lowercase title+artist, replace every non-alphanumeric character by a
separator, collapse repeated separators, trim leading/trailing separators,
default "song" when empty.  Missing from src/: no such derivation appears in
the code, which issues a purely random token. -/
def slugBase_spec (title artist : String) : String :=
  let mapped := ((title ++ " " ++ artist).toList.map Char.toLower).map
    (fun c => if isAlnum c then c else '-')
  let trimmed := trimSep (collapseSep mapped)
  if trimmed.isEmpty then "song" else String.mk trimmed

/-- Does `pat` start `l`? -/
def startsWithL : List Char → List Char → Bool
  | [], _ => true
  | _ :: _, [] => false
  | a :: as, b :: bs => a == b && startsWithL as bs

/-- Does `pat` occur contiguously inside `l`? -/
def containsSub : List Char → List Char → Bool
  | [], pat => pat.isEmpty
  | h :: t, pat => startsWithL pat (h :: t) || containsSub t pat

/-! ### Concrete sample data used by counterexamples and witnesses -/

/-- Ten zero bytes, a concrete value of `secrets.token_bytes(10)`. -/
def zeroBytes : List Nat := List.replicate 10 0

/-- A concrete valid upload request. -/
def helloReq : UploadRequest :=
  { filename := "song.mp3"
    content_type := "audio/mpeg"
    content := [1, 2, 3]
    title := "Hello"
    artist := "World"
    description := none }

/-- The empty configured system. -/
def emptySys : Sys :=
  { dbConfigured := true, songs := [], analytics := [], files := [], nextId := 0 }

/-- A concrete stored song. -/
def sampleSong : SongDoc :=
  { id := 0
    title := "T"
    artist := "A"
    description := none
    token := "tok"
    file_path := "uploads/tok.mp3"
    original_filename := "x.mp3"
    mime_type := "audio/mpeg"
    size_bytes := 3
    download_count := 0
    updated_at := none }

/-- A concrete system holding `sampleSong` with its file present. -/
def sampleSys : Sys :=
  { dbConfigured := true
    songs := [sampleSong]
    analytics := []
    files := ["uploads/tok.mp3"]
    nextId := 1 }

/-- An empty request context. -/
def sampleReq : ReqCtx := { client := none, user_agent := none, referer := none }

/-- A system with download counts 3, 7, 0, 12, the example of spec section 8.7. -/
def exampleSys : Sys :=
  { dbConfigured := true
    songs := [{ sampleSong with id := 0, download_count := 3 },
              { sampleSong with id := 1, download_count := 7 },
              { sampleSong with id := 2, download_count := 0 },
              { sampleSong with id := 3, download_count := 12 }]
    analytics := []
    files := []
    nextId := 4 }

/-- Agreement of two song documents on every field except `file_path` (the
server-internal storage location). -/
def samePublic (d e : SongDoc) : Prop :=
  d.id = e.id ∧ d.title = e.title ∧ d.artist = e.artist ∧ d.description = e.description
    ∧ d.token = e.token ∧ d.original_filename = e.original_filename
    ∧ d.mime_type = e.mime_type ∧ d.size_bytes = e.size_bytes
    ∧ d.download_count = e.download_count ∧ d.updated_at = e.updated_at

/-- The sample song with its storage path moved elsewhere. -/
def movedSong : SongDoc := { sampleSong with file_path := "elsewhere/secret.bin" }

/-- The sample system with the record's storage path moved elsewhere. -/
def movedSys : Sys := { sampleSys with songs := [movedSong] }


/-! ## Helper lemmas -/

/-- `decodeChar` inverts `encodeChar` on 6-bit values. -/
theorem decodeChar_encodeChar : ∀ s : Nat, s < 64 → decodeChar (encodeChar s) = s := by decide

theorem sextets_lt_64 : ∀ l : List Nat, (∀ b ∈ l, b < 256) → ∀ s ∈ sextets l, s < 64 := by
  intro l
  induction l using sextets.induct with
  | case1 => intro _ s hs; simp [sextets] at hs
  | case2 a =>
    intro hb s hs
    have ha := hb a (by simp)
    simp [sextets] at hs
    rcases hs with h | h <;> omega
  | case3 a b =>
    intro hb s hs
    have ha := hb a (by simp)
    have hb2 := hb b (by simp)
    simp [sextets] at hs
    rcases hs with h | h | h <;> omega
  | case4 a b c rest ih =>
    intro hb s hs
    have ha := hb a (by simp)
    have hb2 := hb b (by simp)
    have hc := hb c (by simp)
    simp only [sextets, List.mem_cons] at hs
    rcases hs with h | h | h | h | h
    · omega
    · omega
    · omega
    · omega
    · exact ih (fun x hx => hb x (by simp [hx])) s h

theorem desex_sextets : ∀ l : List Nat, (∀ b ∈ l, b < 256) → desex (sextets l) = l := by
  intro l
  induction l using sextets.induct with
  | case1 => intro _; rfl
  | case2 a =>
    intro hb
    have ha := hb a (by simp)
    simp [sextets, desex]
    omega
  | case3 a b =>
    intro hb
    have ha := hb a (by simp)
    have hb2 := hb b (by simp)
    simp [sextets, desex]
    omega
  | case4 a b c rest ih =>
    intro hb
    have ha := hb a (by simp)
    have hb2 := hb b (by simp)
    have hc := hb c (by simp)
    simp only [sextets, desex]
    rw [ih (fun x hx => hb x (by simp [hx]))]
    simp only [List.cons.injEq]
    exact ⟨by omega, by omega, by omega, trivial⟩

theorem map_decodeChar_encodeChar :
    ∀ l : List Nat, (∀ x ∈ l, x < 64) → (l.map encodeChar).map decodeChar = l := by
  intro l hl
  induction l with
  | nil => rfl
  | cons a rest ih =>
    simp only [List.map_cons, List.cons.injEq]
    exact ⟨decodeChar_encodeChar a (hl a (by simp)),
      ih (fun x hx => hl x (by simp [hx]))⟩

theorem tokenUrlsafe_inj (b1 b2 : List Nat)
    (h1 : ∀ x ∈ b1, x < 256) (h2 : ∀ x ∈ b2, x < 256)
    (h : tokenUrlsafe b1 = tokenUrlsafe b2) : b1 = b2 := by
  have hchars : (sextets b1).map encodeChar = (sextets b2).map encodeChar :=
    congrArg String.data h
  have hsex : sextets b1 = sextets b2 := by
    have := congrArg (List.map decodeChar) hchars
    rwa [map_decodeChar_encodeChar _ (sextets_lt_64 b1 h1),
      map_decodeChar_encodeChar _ (sextets_lt_64 b2 h2)] at this
  have := congrArg desex hsex
  rwa [desex_sextets b1 h1, desex_sextets b2 h2] at this

theorem tokenUrlsafe_eq_iff (b1 b2 : List Nat)
    (h1 : ∀ x ∈ b1, x < 256) (h2 : ∀ x ∈ b2, x < 256) :
    tokenUrlsafe b1 = tokenUrlsafe b2 ↔ b1 = b2 :=
  ⟨tokenUrlsafe_inj b1 b2 h1 h2, fun h => by rw [h]⟩

/-- Reduction of `uploadSong` in the fully successful case. -/
theorem uploadSong_ok (sys : Sys) (r : UploadRequest) (bs : List Nat) (url : String)
    (hdb : sys.dbConfigured = true) (hv : uploadTypeRejected r = false) :
    uploadSong sys r bs true url =
      (Except.ok { id := sys.nextId
                   token := tokenUrlsafe bs
                   download_url := mkDownloadUrl url (tokenUrlsafe bs)
                   meta_url := mkMetaUrl url (tokenUrlsafe bs) },
       { sys with songs := sys.songs ++ [mkUploadDoc r bs sys.nextId]
                  files := uploadStoredPath r bs :: sys.files
                  nextId := sys.nextId + 1 }) := by
  simp [uploadSong, hdb, hv]

/-- A sequence of successful uploads returns exactly the encodings of its
random draws, and inserts one record per upload with no existence check. -/
theorem runUploads_ok (r : UploadRequest) (url : String) (hv : uploadTypeRejected r = false) :
    ∀ (draws : List (List Nat)) (sys : Sys), sys.dbConfigured = true →
      (runUploads r true url sys draws).1 = draws.map tokenUrlsafe
      ∧ (runUploads r true url sys draws).2.songs.length
          = sys.songs.length + draws.length := by
  intro draws
  induction draws with
  | nil => intro sys _; simp [runUploads]
  | cons bs rest ih =>
    intro sys hdb
    rw [runUploads, uploadSong_ok sys r bs url hdb hv]
    have ihs := ih { sys with songs := sys.songs ++ [mkUploadDoc r bs sys.nextId]
                              files := uploadStoredPath r bs :: sys.files
                              nextId := sys.nextId + 1 } hdb
    simp only [List.map_cons, List.length_cons]
    refine ⟨?_, ?_⟩
    · simpa using ihs.1
    · have := ihs.2
      simp only [List.length_append, List.length_cons, List.length_nil] at this
      simpa [this] using by omega

/-- C1 (amended): the upload operation issues the slug as the url-safe
encoding of its 10 random bytes and inserts the record with no existence
check against the Record Store; the N resulting slugs are pairwise distinct
exactly when the N random draws are pairwise distinct. -/
theorem upload_slug_uniqueness_no_check (sys : Sys) (r : UploadRequest) (url : String)
    (draws : List (List Nat))
    (hdb : sys.dbConfigured = true) (hv : uploadTypeRejected r = false)
    (hbytes : ∀ d ∈ draws, ∀ x ∈ d, x < 256) :
    (runUploads r true url sys draws).1 = draws.map tokenUrlsafe
    ∧ (runUploads r true url sys draws).2.songs.length = sys.songs.length + draws.length
    ∧ ((runUploads r true url sys draws).1.Pairwise (fun a b => a ≠ b)
        ↔ draws.Pairwise (fun a b => a ≠ b)) := by
  obtain ⟨h1, h2⟩ := runUploads_ok r url hv draws sys hdb
  refine ⟨h1, h2, ?_⟩
  rw [h1, List.pairwise_map]
  constructor
  · intro h
    refine h.imp_of_mem ?_
    intro a b _ _ hne he
    exact hne (by rw [he])
  · intro h
    refine h.imp_of_mem ?_
    intro a b ha hb hne he
    exact hne (tokenUrlsafe_inj a b (hbytes a ha) (hbytes b hb) he)

/-- Witness for the amended C1 theorem at two distinct concrete draws. -/
theorem upload_slug_uniqueness_no_check_witness :
    (emptySys.dbConfigured = true ∧ uploadTypeRejected helloReq = false
      ∧ ∀ d ∈ [zeroBytes, List.replicate 10 1], ∀ x ∈ d, x < 256)
    ∧ ((runUploads helloReq true "" emptySys [zeroBytes, List.replicate 10 1]).1
          = [zeroBytes, List.replicate 10 1].map tokenUrlsafe
        ∧ (runUploads helloReq true "" emptySys [zeroBytes, List.replicate 10 1]).2.songs.length
            = emptySys.songs.length + ([zeroBytes, List.replicate 10 1] : List (List Nat)).length
        ∧ ((runUploads helloReq true "" emptySys [zeroBytes, List.replicate 10 1]).1.Pairwise
              (fun a b => a ≠ b)
            ↔ ([zeroBytes, List.replicate 10 1] : List (List Nat)).Pairwise (fun a b => a ≠ b))) :=
  ⟨⟨rfl, rfl, by decide⟩,
    upload_slug_uniqueness_no_check emptySys helloReq "" [zeroBytes, List.replicate 10 1]
      rfl rfl (by decide)⟩

/-- C1 counterexample: two creations whose random draws coincide both succeed
and both insert, returning the same slug twice — no existence check makes the
slugs pairwise distinct. -/
theorem upload_slug_uniqueness_cex :
    (runUploads helloReq true "" emptySys [zeroBytes, zeroBytes]).1
        = ["AAAAAAAAAAAAAA", "AAAAAAAAAAAAAA"]
    ∧ ¬ ((runUploads helloReq true "" emptySys [zeroBytes, zeroBytes]).1.Pairwise
          (fun a b => a ≠ b))
    ∧ (runUploads helloReq true "" emptySys [zeroBytes, zeroBytes]).2.songs.length = 2 := by
  refine ⟨by decide, ?_, by decide⟩
  intro h
  have : ("AAAAAAAAAAAAAA" : String) ≠ "AAAAAAAAAAAAAA" := by
    have h1 := (by decide :
      (runUploads helloReq true "" emptySys [zeroBytes, zeroBytes]).1
        = ["AAAAAAAAAAAAAA", "AAAAAAAAAAAAAA"])
    rw [h1] at h
    exact List.rel_of_pairwise_cons h (by simp)
  exact this rfl

/-- C5 (amended): the issued slug is the url-safe base64 encoding of the 10
random bytes drawn, with no human-readable component: it is the same value
for every title and artist, it is deterministic given the random draw, and
two draws produce the same slug exactly when they are equal. -/
theorem slug_pure_random_token (sys : Sys) (r : UploadRequest) (bs bs2 : List Nat)
    (url : String)
    (hdb : sys.dbConfigured = true) (hv : uploadTypeRejected r = false)
    (hb : ∀ x ∈ bs, x < 256) (hb2 : ∀ x ∈ bs2, x < 256) :
    (uploadSong sys r bs true url).1
      = Except.ok { id := sys.nextId
                    token := tokenUrlsafe bs
                    download_url := mkDownloadUrl url (tokenUrlsafe bs)
                    meta_url := mkMetaUrl url (tokenUrlsafe bs) }
    ∧ (tokenUrlsafe bs = tokenUrlsafe bs2 ↔ bs = bs2) :=
  ⟨by rw [uploadSong_ok sys r bs url hdb hv], tokenUrlsafe_eq_iff bs bs2 hb hb2⟩

/-- Witness for the amended C5 theorem at concrete draws. -/
theorem slug_pure_random_token_witness :
    (emptySys.dbConfigured = true ∧ uploadTypeRejected helloReq = false
      ∧ (∀ x ∈ zeroBytes, x < 256) ∧ (∀ x ∈ List.replicate 10 1, x < 256))
    ∧ ((uploadSong emptySys helloReq zeroBytes true "").1
          = Except.ok { id := emptySys.nextId
                        token := tokenUrlsafe zeroBytes
                        download_url := mkDownloadUrl "" (tokenUrlsafe zeroBytes)
                        meta_url := mkMetaUrl "" (tokenUrlsafe zeroBytes) }
        ∧ (tokenUrlsafe zeroBytes = tokenUrlsafe (List.replicate 10 1)
            ↔ zeroBytes = List.replicate 10 1)) :=
  ⟨⟨rfl, rfl, by decide, by decide⟩,
    slug_pure_random_token emptySys helloReq zeroBytes (List.replicate 10 1) ""
      rfl rfl (by decide) (by decide)⟩

/-- C5 counterexample: for title "Hello" and artist "World" the spec's
human-readable base is "hello-world", but the slug issued by the code (with
zero random bytes) is "AAAAAAAAAAAAAA", which does not contain that base, nor
even the alphanumeric run "hello" that any separator choice would preserve. -/
theorem slug_derivation_cex :
    (uploadSong emptySys helloReq zeroBytes true "").1
        = Except.ok { id := 0
                      token := "AAAAAAAAAAAAAA"
                      download_url := "/api/songs/AAAAAAAAAAAAAA/download"
                      meta_url := "/api/songs/AAAAAAAAAAAAAA" }
    ∧ slugBase_spec "Hello" "World" = "hello-world"
    ∧ containsSub "AAAAAAAAAAAAAA".toList "hello-world".toList = false
    ∧ containsSub "AAAAAAAAAAAAAA".toList "hello".toList = false :=
  ⟨rfl, by decide, by decide, by decide⟩

/-- The `update_one` step leaves lookup-by-id pointing at the bumped record. -/
theorem incFirst_find? (i now : Nat) :
    ∀ (songs : List SongDoc) (d : SongDoc),
      songs.find? (fun x => x.id == i) = some d →
      (incFirst songs i now).find? (fun x => x.id == i)
        = some { d with download_count := d.download_count + 1, updated_at := some now } := by
  intro songs
  induction songs with
  | nil => intro d h; simp at h
  | cons x rest ih =>
    intro d h
    rw [incFirst]
    by_cases hx : (x.id == i) = true
    · rw [List.find?_cons_of_pos rest hx] at h
      injection h with h
      subst h
      rw [if_pos hx]
      exact List.find?_cons_of_pos rest hx
    · have hx2 : ¬ ((fun y : SongDoc => y.id == i) x = true) := hx
      rw [List.find?_cons_of_neg rest hx2] at h
      rw [if_neg hx]
      rw [List.find?_cons_of_neg (incFirst rest i now) hx2]
      exact ih d h

/-- C2: any interleaving of K concurrent `incrementCounter(slug, downloads, 1)`
calls is a sequence of K applications of the atomic `update_one` step
`incFirst` (each call's effect on the store is that single indivisible
document update), and after the K steps the stored download count equals the
count before plus K: no update is lost, whatever the order. -/
theorem incrementCounter_atomic (i : Nat) (ts : List Nat) :
    ∀ (songs : List SongDoc) (d : SongDoc),
      songs.find? (fun x => x.id == i) = some d →
      ((ts.foldl (fun s t => incFirst s i t) songs).find? (fun x => x.id == i)).map
          (fun x => x.download_count)
        = some (d.download_count + ts.length) := by
  induction ts with
  | nil => intro songs d h; simp [h]
  | cons t rest ih =>
    intro songs d h
    have h2 := incFirst_find? i t songs d h
    have h3 := ih _ _ h2
    simp only [List.foldl_cons]
    rw [h3]
    simp only [Option.some.injEq, List.length_cons]
    omega

/-- Witness for the C2 theorem: two increments on a store holding one record
with count 0 end with count 2. -/
theorem incrementCounter_atomic_witness :
    ([sampleSong].find? (fun x => x.id == 0) = some sampleSong)
    ∧ ((([1, 2] : List Nat).foldl (fun s t => incFirst s 0 t) [sampleSong]).find?
          (fun x => x.id == 0)).map (fun x => x.download_count)
        = some (sampleSong.download_count + ([1, 2] : List Nat).length) :=
  ⟨by decide, incrementCounter_atomic 0 [1, 2] [sampleSong] sampleSong (by decide)⟩

/-- C3 (amended): only the event-log insert of `download_song` is best-effort:
when it raises, the error is swallowed and the download still returns its
normal success payload (with the counter update applied); but when the counter
increment raises, the error propagates and the download fails instead of
returning the success payload. -/
theorem analytics_insert_failure_isolated (sys : Sys) (t : String) (req : ReqCtx)
    (now : Nat) (d : SongDoc)
    (hdb : sys.dbConfigured = true)
    (hf : sys.songs.find? (fun x => x.token == t) = some d)
    (hp : d.file_path ≠ "") (hex : d.file_path ∈ sys.files) :
    (downloadSong sys t req now true false).1 = (downloadSong sys t req now true true).1
    ∧ (downloadSong sys t req now true false).1
        = Except.ok { path := d.file_path
                      media_type :=
                        if d.mime_type = "" then "application/octet-stream" else d.mime_type
                      filename :=
                        if d.original_filename = "" then basename d.file_path
                        else d.original_filename }
    ∧ (downloadSong sys t req now true false).2.songs = incFirst sys.songs d.id now
    ∧ (∀ insOk, (downloadSong sys t req now false insOk).1
        = Except.error ⟨500, "Internal Server Error"⟩) := by
  refine ⟨?_, ?_, ?_, ?_⟩ <;>
    simp [downloadSong, hdb, hf, hp, hex]

/-- Witness for the amended C3 theorem on the concrete sample store. -/
theorem analytics_insert_failure_isolated_witness :
    (sampleSys.dbConfigured = true
      ∧ sampleSys.songs.find? (fun x => x.token == "tok") = some sampleSong
      ∧ sampleSong.file_path ≠ "" ∧ sampleSong.file_path ∈ sampleSys.files)
    ∧ ((downloadSong sampleSys "tok" sampleReq 5 true false).1
          = (downloadSong sampleSys "tok" sampleReq 5 true true).1
        ∧ (downloadSong sampleSys "tok" sampleReq 5 true false).1
            = Except.ok { path := sampleSong.file_path
                          media_type :=
                            if sampleSong.mime_type = "" then "application/octet-stream"
                            else sampleSong.mime_type
                          filename :=
                            if sampleSong.original_filename = "" then
                              basename sampleSong.file_path
                            else sampleSong.original_filename }
        ∧ (downloadSong sampleSys "tok" sampleReq 5 true false).2.songs
            = incFirst sampleSys.songs sampleSong.id 5
        ∧ (∀ insOk, (downloadSong sampleSys "tok" sampleReq 5 false insOk).1
            = Except.error ⟨500, "Internal Server Error"⟩)) :=
  ⟨⟨rfl, by decide, by decide, by decide⟩,
    analytics_insert_failure_isolated sampleSys "tok" sampleReq 5 sampleSong
      rfl (by decide) (by decide) (by decide)⟩

/-- C3 counterexample: on the sample store the normal download succeeds, but
when the counter increment raises (`incOk = false`) the request returns the
500 error instead of the normal success payload — an increment failure is not
swallowed, contradicting the claim that either failure is. -/
theorem download_counter_error_not_swallowed_cex :
    (downloadSong sampleSys "tok" sampleReq 5 true true).1
        = Except.ok { path := "uploads/tok.mp3"
                      media_type := "audio/mpeg"
                      filename := "x.mp3" }
    ∧ (downloadSong sampleSys "tok" sampleReq 5 false true).1
        = Except.error { status := 500, detail := "Internal Server Error" } :=
  ⟨rfl, rfl⟩

/-- C4 (amended): the record inserted by `upload_song` carries a single
counter, `download_count`, initialised to 0, and a metadata lookup is a pure
read: `get_song` returns the state unchanged — it neither increments any view
counter (none exists on the runtime records, although the `Song` schema of
schemas.py declares a `views` field defaulting to 0) nor creates any
EventRecord. -/
theorem lookup_pure_no_view_counter (sys : Sys) (t url : String) (r : UploadRequest)
    (bs : List Nat) (i : Nat) :
    (getSong sys t url).2 = sys ∧ (mkUploadDoc r bs i).download_count = 0 := by
  refine ⟨?_, rfl⟩
  unfold getSong
  split
  · rfl
  · split <;> rfl

/-- C4 counterexample: a successful metadata lookup on the sample store
returns the song's metadata yet leaves the whole state — in particular the
analytics event log — unchanged and empty: no view EventRecord is created and
no view counter exists to be incremented. -/
theorem lookup_creates_no_event_cex :
    (getSong sampleSys "tok" "").1
        = Except.ok { title := "T"
                      artist := "A"
                      description := none
                      token := "tok"
                      size_bytes := 3
                      mime_type := "audio/mpeg"
                      download_count := 0
                      download_url := "/api/songs/tok/download"
                      original_filename := "x.mp3" }
    ∧ (getSong sampleSys "tok" "").2 = sampleSys
    ∧ (getSong sampleSys "tok" "").2.analytics = [] :=
  ⟨rfl, rfl, rfl⟩

/-- C6: a slug with no record gives 404 "Song not found" on both the metadata
lookup and the download, and a slug whose record exists but whose backing file
is missing from disk (or whose stored path is falsy) gives 404 "File missing
on server" on the download — not a server error. -/
theorem not_found_boundary (sys : Sys) (t url : String) (req : ReqCtx) (now : Nat)
    (incOk insOk : Bool) (hdb : sys.dbConfigured = true) :
    (sys.songs.find? (fun d => d.token == t) = none →
      (getSong sys t url).1 = Except.error ⟨404, "Song not found"⟩
      ∧ (downloadSong sys t req now incOk insOk).1 = Except.error ⟨404, "Song not found"⟩)
    ∧ (∀ d, sys.songs.find? (fun x => x.token == t) = some d →
        (d.file_path = "" ∨ d.file_path ∉ sys.files) →
        (downloadSong sys t req now incOk insOk).1
          = Except.error ⟨404, "File missing on server"⟩) := by
  constructor
  · intro hnone
    constructor
    · simp [getSong, hdb, hnone]
    · simp [downloadSong, hdb, hnone]
  · intro d hf hmiss
    simp only [downloadSong, hdb, hf]
    rw [if_neg (by simp [hdb])]
    rw [if_pos hmiss]

/-- Witness for the C6 theorem: an unknown slug on the sample store, and the
moved-file store for the missing-file case. -/
theorem not_found_boundary_witness :
    (sampleSys.dbConfigured = true ∧ sampleSys.songs.find? (fun d => d.token == "nope") = none)
    ∧ ((sampleSys.songs.find? (fun d => d.token == "nope") = none →
        (getSong sampleSys "nope" "").1 = Except.error ⟨404, "Song not found"⟩
        ∧ (downloadSong sampleSys "nope" sampleReq 5 true true).1
            = Except.error ⟨404, "Song not found"⟩)
      ∧ (∀ d, sampleSys.songs.find? (fun x => x.token == "nope") = some d →
          (d.file_path = "" ∨ d.file_path ∉ sampleSys.files) →
          (downloadSong sampleSys "nope" sampleReq 5 true true).1
            = Except.error ⟨404, "File missing on server"⟩)) :=
  ⟨⟨rfl, by decide⟩, not_found_boundary sampleSys "nope" "" sampleReq 5 true true rfl⟩

unseal List.merge List.mergeSort in
/-- C7: for every store state the overview succeeds; its total equals the sum
of the download counts over all records (0 when no records exist), its top
list is sorted by download count descending, contains `limit` records (fewer
only when the store is smaller) drawn from the projected records, and its
recent events are `limit` events drawn from the analytics log, all of type
"download", newest first; on the spec's example counts 3, 7, 0, 12 the total
is 22 and the top-2 list has counts 12 and 7 in that order. -/
theorem analytics_overview_correct (sys : Sys) (limit : Nat)
    (hdb : sys.dbConfigured = true) :
    (∃ o, (analyticsOverview sys limit).1 = Except.ok o
      ∧ o.total_songs = sys.songs.length
      ∧ o.total_downloads = (sys.songs.map (fun d => d.download_count)).sum
      ∧ o.top_songs.Pairwise (fun a b => b.download_count ≤ a.download_count)
      ∧ o.top_songs.length = min limit sys.songs.length
      ∧ (∀ x ∈ o.top_songs, x ∈ sys.songs.map projTop)
      ∧ o.recent_downloads.Pairwise (fun a b => b.timestamp ≤ a.timestamp)
      ∧ (∀ e ∈ o.recent_downloads, e ∈ sys.analytics ∧ e.event = "download")
      ∧ o.recent_downloads.length
          = min limit (sys.analytics.filter (fun e => e.event == "download")).length)
    ∧ (analyticsOverview exampleSys 2).1
        = Except.ok { total_songs := 4
                      total_downloads := 22
                      top_songs := [⟨"T", "A", 12⟩, ⟨"T", "A", 7⟩]
                      recent_downloads := [] } := by
  constructor
  · refine ⟨{ total_songs := sys.songs.length
              total_downloads := foldRows (aggRows sys.songs)
              top_songs := ((sys.songs.map projTop).mergeSort topDesc).take limit
              recent_downloads :=
                ((sys.analytics.filter (fun e => e.event == "download")).mergeSort
                  recentDesc).take limit },
            by simp [analyticsOverview, hdb], rfl, ?_, ?_, ?_, ?_, ?_, ?_, ?_⟩
    · unfold foldRows aggRows
      cases sys.songs with
      | nil => simp
      | cons a l => simp
    · refine List.Pairwise.sublist (List.take_sublist _ _) ?_
      have h : ((sys.songs.map projTop).mergeSort topDesc).Pairwise
          (fun a b => topDesc a b = true) :=
        List.sorted_mergeSort
          (fun a b c h1 h2 => by
            simp only [topDesc, decide_eq_true_eq] at h1 h2 ⊢; omega)
          (fun a b => by
            simp only [topDesc, Bool.or_eq_true, decide_eq_true_eq]; omega)
          (sys.songs.map projTop)
      exact h.imp (fun hab => by
        simpa only [topDesc, decide_eq_true_eq] using hab)
    · simp [List.length_take]
    · intro x hx
      have h1 := List.mem_of_mem_take hx
      rwa [List.mem_mergeSort] at h1
    · refine List.Pairwise.sublist (List.take_sublist _ _) ?_
      have h : ((sys.analytics.filter (fun e => e.event == "download")).mergeSort
          recentDesc).Pairwise (fun a b => recentDesc a b = true) :=
        List.sorted_mergeSort
          (fun a b c h1 h2 => by
            simp only [recentDesc, decide_eq_true_eq] at h1 h2 ⊢; omega)
          (fun a b => by
            simp only [recentDesc, Bool.or_eq_true, decide_eq_true_eq]; omega)
          (sys.analytics.filter (fun e => e.event == "download"))
      exact h.imp (fun hab => by
        simpa only [recentDesc, decide_eq_true_eq] using hab)
    · intro e he
      have h1 := List.mem_of_mem_take he
      rw [List.mem_mergeSort] at h1
      have h2 := List.mem_filter.mp h1
      exact ⟨h2.1, by simpa using h2.2⟩
    · simp [List.length_take]
  · rfl

/-- Witness for the C7 theorem on the sample store. -/
theorem analytics_overview_correct_witness :
    sampleSys.dbConfigured = true
    ∧ ((∃ o, (analyticsOverview sampleSys 3).1 = Except.ok o
        ∧ o.total_songs = sampleSys.songs.length
        ∧ o.total_downloads = (sampleSys.songs.map (fun d => d.download_count)).sum
        ∧ o.top_songs.Pairwise (fun a b => b.download_count ≤ a.download_count)
        ∧ o.top_songs.length = min 3 sampleSys.songs.length
        ∧ (∀ x ∈ o.top_songs, x ∈ sampleSys.songs.map projTop)
        ∧ o.recent_downloads.Pairwise (fun a b => b.timestamp ≤ a.timestamp)
        ∧ (∀ e ∈ o.recent_downloads, e ∈ sampleSys.analytics ∧ e.event = "download")
        ∧ o.recent_downloads.length
            = min 3 (sampleSys.analytics.filter (fun e => e.event == "download")).length)
      ∧ (analyticsOverview exampleSys 2).1
          = Except.ok { total_songs := 4
                        total_downloads := 22
                        top_songs := [⟨"T", "A", 12⟩, ⟨"T", "A", 7⟩]
                        recent_downloads := [] }) :=
  ⟨rfl, analytics_overview_correct sampleSys 3 rfl⟩

/-- C8: upload is atomic and ordered: a file-type rejection returns 400 with
the state unchanged (no file written, no record inserted); a file-persistence
failure aborts the request with the song collection unchanged (no partial
record); and whenever the upload returns success, the new state holds exactly
the old records plus the one new record, whose backing file is present in the
state's file set — the record insert comes only with the file durably
written. -/
theorem upload_atomic_ordering (sys : Sys) (r : UploadRequest) (bs : List Nat)
    (w : Bool) (url : String) (hdb : sys.dbConfigured = true) :
    (uploadTypeRejected r = true →
      uploadSong sys r bs w url = (Except.error ⟨400, "Unsupported audio format"⟩, sys))
    ∧ (w = false → (uploadSong sys r bs w url).2.songs = sys.songs)
    ∧ (∀ resp, (uploadSong sys r bs w url).1 = Except.ok resp →
        (uploadSong sys r bs w url).2.songs = sys.songs ++ [mkUploadDoc r bs sys.nextId]
        ∧ (mkUploadDoc r bs sys.nextId).file_path ∈ (uploadSong sys r bs w url).2.files) := by
  refine ⟨?_, ?_, ?_⟩
  · intro hv; simp [uploadSong, hdb, hv]
  · intro hw; subst hw
    by_cases hv : uploadTypeRejected r = true <;> simp [uploadSong, hdb, hv]
  · intro resp h
    by_cases hv : uploadTypeRejected r = true
    · rw [uploadSong] at h; simp [hdb, hv] at h
    · have hv2 : uploadTypeRejected r = false := by simpa using hv
      cases w with
      | false => rw [uploadSong] at h; simp [hdb, hv2] at h
      | true =>
        rw [uploadSong_ok sys r bs url hdb hv2]
        exact ⟨rfl, List.mem_cons_self _ _⟩

/-- Witness for the C8 theorem at a concrete successful upload. -/
theorem upload_atomic_ordering_witness :
    sampleSys.dbConfigured = true
    ∧ ((uploadTypeRejected helloReq = true →
          uploadSong sampleSys helloReq zeroBytes true ""
            = (Except.error ⟨400, "Unsupported audio format"⟩, sampleSys))
      ∧ (true = false →
          (uploadSong sampleSys helloReq zeroBytes true "").2.songs = sampleSys.songs)
      ∧ (∀ resp, (uploadSong sampleSys helloReq zeroBytes true "").1 = Except.ok resp →
          (uploadSong sampleSys helloReq zeroBytes true "").2.songs
              = sampleSys.songs ++ [mkUploadDoc helloReq zeroBytes sampleSys.nextId]
          ∧ (mkUploadDoc helloReq zeroBytes sampleSys.nextId).file_path
              ∈ (uploadSong sampleSys helloReq zeroBytes true "").2.files)) :=
  ⟨rfl, upload_atomic_ordering sampleSys helloReq zeroBytes true "" rfl⟩

/-- Lookup by token over two publicly-equal stores finds either nothing on
both sides or publicly-equal documents. -/
theorem find?_token_samePublic (t : String) :
    ∀ {s1 s2 : List SongDoc}, List.Forall₂ samePublic s1 s2 →
      (s1.find? (fun d => d.token == t) = none ∧ s2.find? (fun d => d.token == t) = none)
      ∨ (∃ d1 d2, s1.find? (fun d => d.token == t) = some d1
          ∧ s2.find? (fun d => d.token == t) = some d2 ∧ samePublic d1 d2) := by
  intro s1 s2 h
  induction h with
  | nil => exact Or.inl ⟨rfl, rfl⟩
  | @cons a b l1 l2 hab htail ih =>
    have htok : a.token = b.token := hab.2.2.2.2.1
    by_cases ht : (a.token == t) = true
    · have hbt : (b.token == t) = true := by rwa [htok] at ht
      exact Or.inr ⟨a, b, List.find?_cons_of_pos l1 ht, List.find?_cons_of_pos l2 hbt, hab⟩
    · have hbt : ¬ ((fun d : SongDoc => d.token == t) b = true) := by
        simpa [← htok] using ht
      have hat : ¬ ((fun d : SongDoc => d.token == t) a = true) := ht
      rw [List.find?_cons_of_neg l1 hat, List.find?_cons_of_neg l2 hbt]
      exact ih

/-- C9: the stored location is confidential: the metadata response is built
without the `file_path` field, so two systems whose records agree on every
field except `file_path` produce identical `get_song` responses. -/
theorem stored_location_confidential (sys1 sys2 : Sys) (t url : String)
    (hdb : sys1.dbConfigured = sys2.dbConfigured)
    (hsongs : List.Forall₂ samePublic sys1.songs sys2.songs) :
    (getSong sys1 t url).1 = (getSong sys2 t url).1 := by
  cases hb2 : sys2.dbConfigured with
  | false =>
    have hb1 : sys1.dbConfigured = false := by rw [hdb, hb2]
    simp [getSong, hb1, hb2]
  | true =>
    have hb1 : sys1.dbConfigured = true := by rw [hdb, hb2]
    rcases find?_token_samePublic t hsongs with ⟨h1, h2⟩ | ⟨d1, d2, h1, h2, hd⟩
    · simp [getSong, hb1, hb2, h1, h2]
    · obtain ⟨hid, hti, har, hde, hto, hof, hmi, hsi, hdc, hup⟩ := hd
      simp [getSong, hb1, hb2, h1, h2, hti, har, hde, hto, hof, hmi, hsi, hdc]

/-- Witness for the C9 theorem: moving the sample record's stored file leaves
the metadata response unchanged. -/
theorem stored_location_confidential_witness :
    (sampleSys.dbConfigured = movedSys.dbConfigured
      ∧ List.Forall₂ samePublic sampleSys.songs movedSys.songs)
    ∧ (getSong sampleSys "tok" "").1 = (getSong movedSys "tok" "").1 := by
  have hs : List.Forall₂ samePublic sampleSys.songs movedSys.songs := by
    refine List.Forall₂.cons ?_ List.Forall₂.nil
    exact ⟨rfl, rfl, rfl, rfl, rfl, rfl, rfl, rfl, rfl, rfl⟩
  exact ⟨⟨rfl, hs⟩, stored_location_confidential sampleSys movedSys "tok" "" rfl hs⟩

/-- C10: with the database configured, an upload is rejected with HTTP 400
"Unsupported audio format" exactly when its declared MIME type is outside the
audio allow-list and its lowercased filename extension is outside the
extension allow-list; and a rejected upload returns with the state unchanged —
no file written, no record created. -/
theorem upload_acceptance_rule (sys : Sys) (r : UploadRequest) (bs : List Nat)
    (w : Bool) (url : String) (hdb : sys.dbConfigured = true) :
    ((uploadSong sys r bs w url).1 = Except.error ⟨400, "Unsupported audio format"⟩
      ↔ ¬ (r.content_type ∈ allowedMimes
            ∨ lowerStr (splitextExt r.filename) ∈ allowedExts))
    ∧ (uploadTypeRejected r = true →
        uploadSong sys r bs w url = (Except.error ⟨400, "Unsupported audio format"⟩, sys)) := by
  have h1 : allowedMimes.contains r.content_type = true ↔ r.content_type ∈ allowedMimes :=
    List.elem_iff
  have h2 : allowedExts.contains (lowerStr (splitextExt r.filename)) = true
      ↔ lowerStr (splitextExt r.filename) ∈ allowedExts := List.elem_iff
  have hiff : uploadTypeRejected r = true
      ↔ ¬ (r.content_type ∈ allowedMimes
            ∨ lowerStr (splitextExt r.filename) ∈ allowedExts) := by
    constructor
    · intro h
      rw [uploadTypeRejected, Bool.and_eq_true] at h
      obtain ⟨ha, hb⟩ := h
      rintro (hm | he)
      · rw [h1.mpr hm] at ha; simp at ha
      · rw [h2.mpr he] at hb; simp at hb
    · intro h
      push_neg at h
      obtain ⟨hm, he⟩ := h
      rw [uploadTypeRejected, Bool.and_eq_true]
      have ha : allowedMimes.contains r.content_type = false := by
        cases hcc : allowedMimes.contains r.content_type
        · rfl
        · exact absurd (h1.mp hcc) hm
      have hb : allowedExts.contains (lowerStr (splitextExt r.filename)) = false := by
        cases hcc : allowedExts.contains (lowerStr (splitextExt r.filename))
        · rfl
        · exact absurd (h2.mp hcc) he
      exact ⟨by rw [ha]; rfl, by rw [hb]; rfl⟩
  have hrej : uploadTypeRejected r = true →
      uploadSong sys r bs w url = (Except.error ⟨400, "Unsupported audio format"⟩, sys) :=
    fun h => by simp [uploadSong, hdb, h]
  refine ⟨⟨?_, ?_⟩, hrej⟩
  · intro h400
    by_cases hv : uploadTypeRejected r = true
    · exact hiff.mp hv
    · exfalso
      have hv2 : uploadTypeRejected r = false := by simpa using hv
      cases w with
      | false => rw [uploadSong] at h400; simp [hdb, hv2] at h400
      | true => rw [uploadSong_ok sys r bs url hdb hv2] at h400; simp at h400
  · intro hnot
    rw [hrej (hiff.mpr hnot)]

/-- Witness for the C10 theorem at a concrete accepted upload. -/
theorem upload_acceptance_rule_witness :
    emptySys.dbConfigured = true
    ∧ (((uploadSong emptySys helloReq zeroBytes true "").1
          = Except.error ⟨400, "Unsupported audio format"⟩
        ↔ ¬ (helloReq.content_type ∈ allowedMimes
              ∨ lowerStr (splitextExt helloReq.filename) ∈ allowedExts))
      ∧ (uploadTypeRejected helloReq = true →
          uploadSong emptySys helloReq zeroBytes true ""
            = (Except.error ⟨400, "Unsupported audio format"⟩, emptySys))) :=
  ⟨rfl, upload_acceptance_rule emptySys helloReq zeroBytes true "" rfl⟩

end SongShare
